import Mathlib

/-!
Verification development for the TikTokTrends pipeline.

Each namespace embeds one component of the repository:

* `TextWorker`      — src/processing/text/main.py (analysis worker with
  model fallback under rate limiting);
* `TranscriptionWorker` — src/processing/transcription/main.py (batch audio
  acquisition and per-item transcription);
* `Dispatcher`      — src/infrastructure/infrastructure/lambda/metadata_trigger/index.py
  (key parsing, partition registration, job submission);
* `Polling`         — the shared Athena query polling loop
  (metadata_trigger, text_trigger, src/analysis/main.py run_query);
* `MetadataWorker`  — src/ingestion/metadata/main.py (cursor lookup and
  partition key conventions).

Effectful Python is embedded by explicit state passing and oracle
parameters: results of external calls (model API, yt-dlp, Athena) are
supplied as function arguments, and side effects are recorded in explicit
effect traces.
-/

namespace TextWorker

/-- The fixed ordered model preference list, src/processing/text/main.py
lines 26-30. -/
def OPENAI_MODELS : List String :=
  ["gpt-4o-mini", "gpt-3.5-turbo", "o1-mini"]

/-- The structured judgment parsed from a successful model response. -/
structure Analysis where
  language : String
  category : String
  summary : String
  keywords : List String
deriving DecidableEq, Repr

/-- Outcome of one chat-completion call, as distinguished by the except
clauses of process_video: a parsed JSON analysis, a RateLimitError, or any
other exception. -/
inductive CallResult where
  | success (a : Analysis)
  | rateLimited
  | otherError
deriving DecidableEq, Repr

/-- Config.switch_to_next_model, lines 71-75: advance the shared index,
cycling modulo the list length. -/
def switch_to_next_model (idx : Nat) : Nat :=
  (idx + 1) % OPENAI_MODELS.length

/-- Config.current_model, lines 66-69 (getD stands in for the list
indexing; the index stays in range along every reachable path). -/
def current_model (idx : Nat) : String :=
  OPENAI_MODELS.getD idx ""

/-- The body of the for-loop of TextProcessor.process_video, lines
101-130.  `fuel` is the remaining loop iterations (the loop header is
`for _ in range(len(OPENAI_MODELS))`), `resps` the oracle giving the
result of each successive model call, `idx` the shared current model
index.  Returns (result, final index, number of call attempts made). -/
def process_video_go : Nat → List CallResult → Nat → Option Analysis × Nat × Nat
  | 0, _, idx => (none, idx, 0)
  | _ + 1, [], idx => (none, idx, 0)
  | fuel + 1, r :: rest, idx =>
    match r with
    | CallResult.success a => (some a, idx, 1)
    | CallResult.otherError => (none, idx, 1)
    | CallResult.rateLimited =>
      let out := process_video_go fuel rest (switch_to_next_model idx)
      (out.1, out.2.1, out.2.2 + 1)

/-- TextProcessor.process_video, lines 90-130: at most one attempt per
configured model; a rate-limit advances the sticky index; any other error
returns None at once; exhausting the loop returns None. -/
def process_video (resps : List CallResult) (idx : Nat) :
    Option Analysis × Nat × Nat :=
  process_video_go OPENAI_MODELS.length resps idx

/-- The per-item loop of TextProcessor.process_video_transcripts, lines
139-152, restricted to its classification calls: one oracle per item, the
shared index threaded through; every item contributes exactly one output
entry whether or not its classification succeeded. -/
def process_video_transcripts :
    List (List CallResult) → Nat → List (Option Analysis) × Nat
  | [], idx => ([], idx)
  | o :: rest, idx =>
    let r := process_video o idx
    let out := process_video_transcripts rest r.2.1
    (r.1 :: out.1, out.2)

end TextWorker

namespace TranscriptionWorker

/-- Filesystem side effects of the transcription batch, as performed by
src/processing/transcription/main.py: creating the per-profile download
directory, the single batched yt-dlp download call, deleting a single
file, and removing the whole per-profile directory tree. -/
inductive FsEffect where
  | mkdirProfileDir (profile : String)
  | downloadBatch (profile : String)
  | unlinkFile (path : String)
  | removeDirTree (profile : String)
deriving DecidableEq, Repr

def FsEffect.isUnlink : FsEffect → Bool
  | FsEffect.unlinkFile _ => true
  | _ => false

def FsEffect.isRemoveDirTree : FsEffect → Bool
  | FsEffect.removeDirTree _ => true
  | _ => false

/-- Transcriber.download_videos, src/processing/transcription/main.py lines
96-136.  Downloads all ids in one batched call, then checks which wav file
landed for each id, in input order; a missing file contributes None.  The
oracle wavExists says which downloads produced a file; downloadOk = false
is the except path (the batched call raised), which returns None for every
id.  An audio path is represented by its video id. -/
def download_videos (wavExists : String → Bool) (downloadOk : Bool)
    (video_ids : List String) : List (Option String) :=
  if downloadOk then
    video_ids.map (fun id => if wavExists id then some id else none)
  else
    List.replicate video_ids.length none

/-- Transcriber.process_videos, src/processing/transcription/main.py lines
180-216.  Per item: a missing audio path yields None, otherwise the
transcription result (the transcribe oracle returns none when
transcribe_audio failed for that file).  procOk = false is the outer
except path, which returns None for every id. -/
def process_videos (wavExists : String → Bool) (downloadOk : Bool)
    (transcribe : String → Option String) (procOk : Bool)
    (video_ids : List String) : List (Option String) :=
  if procOk then
    (download_videos wavExists downloadOk video_ids).map
      (fun p => p.bind transcribe)
  else
    List.replicate video_ids.length none

/-- download_videos with its filesystem effect trace: the profile directory
is created first, then the one batched download call runs (the call is
attempted even when it raises). -/
def download_videos_trace (wavExists : String → Bool) (downloadOk : Bool)
    (profile : String) (video_ids : List String) :
    List (Option String) × List FsEffect :=
  (download_videos wavExists downloadOk video_ids,
   [FsEffect.mkdirProfileDir profile, FsEffect.downloadBatch profile])

/-- The normal-completion path of Transcriber.process_videos with its
filesystem effect trace, src/processing/transcription/main.py lines
192-212: batch download, then the per-item transcription loop, which
performs no file deletion, then one removal of the whole per-profile
directory tree at the end (the directory exists, having been created by
download_videos). -/
def process_videos_trace (wavExists : String → Bool) (downloadOk : Bool)
    (transcribe : String → Option String) (profile : String)
    (video_ids : List String) : List (Option String) × List FsEffect :=
  let dl := download_videos_trace wavExists downloadOk profile video_ids
  (dl.1.map (fun p => p.bind transcribe),
   dl.2 ++ [FsEffect.removeDirTree profile])

/-- Concrete transcription oracle used to instantiate hypotheses: every
file transcribes successfully to a fixed text. -/
def transcribeAll (path : String) : Option String :=
  some (path ++ "-text")

/-- Concrete acquisition oracle: every wav file except the one for id b
landed. -/
def wavExceptB (id : String) : Bool :=
  !(id == "b")

end TranscriptionWorker

namespace Dispatcher

/-- Strip a literal character sequence from the front of a list, returning
the remainder when the whole literal is present. -/
def stripLit : List Char → List Char → Option (List Char)
  | [], s => some s
  | _ :: _, [] => none
  | c :: cs, d :: ds => if c = d then stripLit cs ds else none

/-- Match of the regex profile=([^/]+)/processed_at=([^/]+)/ anchored at
the head of the character list: the two literal fragments, each capture a
nonempty run of non-slash characters, each followed by a slash.  Used by
add_partition in metadata_trigger/index.py line 45 (text_trigger line 18
and initial_partition_detection line 19 use the same pattern). -/
def matchKeyAt (s : List Char) : Option (String × String) :=
  match stripLit ("profile=".toList) s with
  | none => none
  | some rest1 =>
    let p := rest1.takeWhile (fun c => c ≠ '/')
    if p.isEmpty then none
    else
      match rest1.dropWhile (fun c => c ≠ '/') with
      | '/' :: rest3 =>
        match stripLit ("processed_at=".toList) rest3 with
        | none => none
        | some rest4 =>
          let ts := rest4.takeWhile (fun c => c ≠ '/')
          if ts.isEmpty then none
          else
            match rest4.dropWhile (fun c => c ≠ '/') with
            | '/' :: _ => some (String.mk p, String.mk ts)
            | _ => none
      | _ => none

/-- re.search of the pattern: try a match at every successive start
position, returning the leftmost one.  (The pattern has no effective
backtracking: a greedy nonempty non-slash run followed by a slash matches
at a position iff the anchored matcher succeeds there.) -/
def searchKey : List Char → Option (String × String)
  | [] => none
  | c :: rest =>
    match matchKeyAt (c :: rest) with
    | some r => some r
    | none => searchKey rest

/-- A partition key of the catalog: (table, profile, processed_at). -/
structure PartKey where
  table : String
  profile : String
  processed_at : String
deriving DecidableEq, Repr

/-- The catalog state of the Partition Registry: registered partitions with
their locations. -/
abbrev Catalog := List (PartKey × String)

def lookupPart (c : Catalog) (k : PartKey) : Option String :=
  match c.find? (fun e => decide (e.1 = k)) with
  | some e => some e.2
  | none => none

/-- Semantics of the DDL statement built by add_partition
(metadata_trigger/index.py lines 57-64): ALTER TABLE ... ADD IF NOT EXISTS
PARTITION (profile, processed_at) LOCATION loc.  When the partition key is
already registered the statement is a no-op that succeeds — the location
clause is ignored — otherwise the partition is recorded with the given
location. -/
def addIfNotExists (c : Catalog) (k : PartKey) (loc : String) : Catalog :=
  match lookupPart c k with
  | some _ => c
  | none => (k, loc) :: c

/-- Outcome of the issued Athena query as seen by the polling loop, plus
exn for an exception raised during submission or polling (caught by the
surrounding except clause). -/
inductive QueryOutcome where
  | succeeded
  | failed
  | cancelled
  | exn
deriving DecidableEq, Repr

/-- Externally visible actions of the dispatcher handler: a Batch job
submission (the JobRequest) and an issued partition-registration
statement. -/
inductive DispatchEffect where
  | submitJob (key : String)
  | startQuery (profile : String) (processed_at : String) (location : String)
deriving DecidableEq, Repr

def DispatchEffect.isSubmitJob : DispatchEffect → Bool
  | DispatchEffect.submitJob _ => true
  | _ => false

def DispatchEffect.isStartQuery : DispatchEffect → Bool
  | DispatchEffect.startQuery _ _ _ => true
  | _ => false

/-- The partition location string built at metadata_trigger/index.py
line 54. -/
def metadataLocation (bucket profile ts : String) : String :=
  "s3://" ++ bucket ++ "/videos/metadata/profile=" ++ profile
    ++ "/processed_at=" ++ ts

/-- add_partition, metadata_trigger/index.py lines 41-90.  The whole body
is inside try/except Exception: every failure is logged and swallowed and
the function always returns normally.  A key the pattern does not match is
logged and the function returns without issuing any statement.  Otherwise
the statement is issued and awaited; q is the oracle for its outcome.
Returns (new catalog, issued statements, whether the registration reached
SUCCEEDED). -/
def add_partition (q : QueryOutcome) (c : Catalog) (bucket key : String) :
    Catalog × List DispatchEffect × Bool :=
  match searchKey key.toList with
  | none => (c, [], false)
  | some (profile, ts) =>
    let loc := metadataLocation bucket profile ts
    match q with
    | QueryOutcome.succeeded =>
        (addIfNotExists c ⟨"metadata", profile, ts⟩ loc,
         [DispatchEffect.startQuery profile ts loc], true)
    | QueryOutcome.exn => (c, [], false)
    | _ => (c, [DispatchEffect.startQuery profile ts loc], false)

structure HandlerResponse where
  statusCode : Nat
  body : String
deriving DecidableEq, Repr

/-- The per-record loop of handler, metadata_trigger/index.py lines
95-131, over the (bucket, key) pairs of the event.  For each record the
job submission happens first and unconditionally (line 110, before any key
parsing for registration); add_partition runs after it and never raises.
submitOk models whether batch.submit_job raises; a raise propagates out of
the loop as an error. -/
def handler_records (submitOk : Bool) (q : QueryOutcome) :
    Catalog → List (String × String) →
    Except String (Catalog × List DispatchEffect)
  | c, [] => Except.ok (c, [])
  | c, (bucket, key) :: rest =>
    if submitOk then
      let r := add_partition q c bucket key
      match handler_records submitOk q r.1 rest with
      | Except.ok out =>
          Except.ok (out.1, DispatchEffect.submitJob key :: (r.2.1 ++ out.2))
      | Except.error e => Except.error e
    else Except.error "submit_job raised"

/-- handler, metadata_trigger/index.py lines 92-140: on any uncaught
exception the handler re-raises (Except.error — the event is not
acknowledged and is redelivered); otherwise it returns statusCode 200 and
the event is acknowledged. -/
def handler (submitOk : Bool) (q : QueryOutcome) (c : Catalog)
    (records : List (String × String)) :
    Except String (HandlerResponse × Catalog × List DispatchEffect) :=
  match handler_records submitOk q c records with
  | Except.ok out =>
      Except.ok (⟨200, "Successfully processed all metadata files"⟩, out.1, out.2)
  | Except.error e => Except.error e

end Dispatcher

namespace Polling

/-- Athena query execution states as read by the polling loops. -/
inductive QState where
  | queued
  | running
  | succeeded
  | failed
  | cancelled
deriving DecidableEq, Repr

/-- The terminal-state test of the loops: state in
[SUCCEEDED, FAILED, CANCELLED]. -/
def isTerminal : QState → Bool
  | QState.succeeded => true
  | QState.failed => true
  | QState.cancelled => true
  | _ => false

/-- The while-True polling loop of metadata_trigger/index.py lines 78-84,
text_trigger/index.py lines 51-57, initial_partition_detection.py lines
67-73 and analysis/main.py run_query lines 192-199, observed through an
external step budget: states i is the state returned by the i-th
get_query_execution call; pollRunFrom states i b performs up to b polls
starting at poll number i and returns the first terminal state seen, or
none when no poll within the budget returned a terminal state — in which
case the real loop is still running at that point, since its only exit is
a terminal state. -/
def pollRunFrom (states : Nat → QState) : Nat → Nat → Option QState
  | _, 0 => none
  | i, b + 1 =>
    if isTerminal (states i) then some (states i)
    else pollRunFrom states (i + 1) b

def pollRun (states : Nat → QState) (bound : Nat) : Option QState :=
  pollRunFrom states 0 bound

/-- A query that never reaches a terminal state. -/
def alwaysRunning : Nat → QState := fun _ => QState.running

/-- A query that is RUNNING on the first poll and SUCCEEDED from the
second poll on. -/
def stepStates : Nat → QState :=
  fun i => if i = 0 then QState.running else QState.succeeded

end Polling

namespace MetadataWorker

/-- The S3 key written by main, src/ingestion/metadata/main.py lines
215-218: lowercase directory names profile= and processed_at=, timestamp
formatted %Y-%m-%d_%H:%M:%S (underscore between date and time). -/
def writtenKey (profile ts : String) : String :=
  "videos/metadata/profile=" ++ profile ++ "/processed_at=" ++ ts
    ++ "/metadata.parquet"

/-- The list_objects_v2 lookup key used by check_last_processed_at, lines
49-51: uppercase directory names PROFILE= and PROCESSED_AT=. -/
def cursorKey (profile : String) : String :=
  "videos/metadata/PROFILE=" ++ profile ++ "/PROCESSED_AT="

def strHasPref (p s : String) : Bool :=
  p.toList.isPrefixOf s.toList

/-- The timestamp extraction of check_last_processed_at line 54:
the piece after PROCESSED_AT= up to the next slash. -/
def extractTs (key : String) : String :=
  ((key.splitOn "PROCESSED_AT=").getD 1 "").takeWhile (fun c => c ≠ '/')

/-- Shape accepted by the datetime.strptime call of line 54 with format
%Y-%m-%d %H:%M:%S (note the space separator): four year digits, dashes,
two-digit fields, a space between date and time, colons. -/
def tsShape : List Char → Bool
  | [y1, y2, y3, y4, '-', m1, m2, '-', d1, d2, ' ',
     h1, h2, ':', n1, n2, ':', s1, s2] =>
      y1.isDigit && y2.isDigit && y3.isDigit && y4.isDigit &&
      m1.isDigit && m2.isDigit && d1.isDigit && d2.isDigit &&
      h1.isDigit && h2.isDigit && n1.isDigit && n2.isDigit &&
      s1.isDigit && s2.isDigit
  | _ => false

def lexLeChars : List Char → List Char → Bool
  | [], _ => true
  | _ :: _, [] => false
  | a :: as, b :: bs =>
    if a < b then true else if b < a then false else lexLeChars as bs

/-- max over the extracted timestamps; for the fixed zero-padded format,
chronological order is character order. -/
def maxTs (l : List String) : String :=
  l.foldl (fun a b => if lexLeChars a.toList b.toList then b else a) ""

/-- Result of check_last_processed_at as seen by its caller: None when the
listing under the cursor key has no contents, the maximum parsed timestamp
when all extracted timestamps parse, and a raised ValueError when one does
not. -/
inductive CursorResult where
  | noneFound
  | found (ts : String)
  | parseError
deriving DecidableEq, Repr

/-- check_last_processed_at, src/ingestion/metadata/main.py lines 49-58:
list the bucket objects under the cursor key (uppercase convention), and
when any are present take the maximum of their extracted timestamps
(datetime.strptime with the space-separated format; a non-parsing
timestamp raises).  objects is the list of keys present in the bucket. -/
def check_last_processed_at (objects : List String) (profile : String) :
    CursorResult :=
  match objects.filter (fun k => strHasPref (cursorKey profile) k) with
  | [] => CursorResult.noneFound
  | ms =>
    if ms.all (fun k => tsShape (extractTs k).toList) then
      CursorResult.found (maxTs (ms.map extractTs))
    else CursorResult.parseError

end MetadataWorker
namespace TextWorker

theorem process_video_transcripts_length (os : List (List CallResult)) :
    ∀ idx, (process_video_transcripts os idx).1.length = os.length := by
  induction os with
  | nil => intro idx; rfl
  | cons o rest ih =>
    intro idx
    simp [process_video_transcripts, ih]

/-- Exhaustion leaves the index where it started: each rate limit advances
the index by one modulo the list length, and there are exactly length-many
advances. -/
theorem process_video_exhausted (idx : Nat) (h : idx < OPENAI_MODELS.length) :
    process_video (List.replicate OPENAI_MODELS.length CallResult.rateLimited) idx
      = (none, idx, OPENAI_MODELS.length) := by
  have h3 : OPENAI_MODELS.length = 3 := rfl
  rw [h3] at h ⊢
  interval_cases idx <;> rfl

/-- Claim C3: if all N configured models (N = length of OPENAI_MODELS)
signal rate limiting, process_video makes exactly N model-call attempts,
one per model, and returns None for the item; the batch loop
process_video_transcripts still yields one output entry per input item, so
the batch is not aborted. -/
theorem C3_exhaustion_bounded (idx : Nat) (h : idx < OPENAI_MODELS.length)
    (os : List (List CallResult)) :
    (process_video (List.replicate OPENAI_MODELS.length CallResult.rateLimited) idx).1 = none
    ∧ (process_video (List.replicate OPENAI_MODELS.length CallResult.rateLimited) idx).2.2
        = OPENAI_MODELS.length
    ∧ (process_video_transcripts os idx).1.length = os.length := by
  refine ⟨?_, ?_, process_video_transcripts_length os idx⟩
  · rw [process_video_exhausted idx h]
  · rw [process_video_exhausted idx h]

/-- Witness for C3 at index 0 and a one-item batch. -/
theorem C3_exhaustion_bounded_witness :
    (process_video (List.replicate OPENAI_MODELS.length CallResult.rateLimited) 0).1 = none
    ∧ (process_video (List.replicate OPENAI_MODELS.length CallResult.rateLimited) 0).2.2
        = OPENAI_MODELS.length
    ∧ (process_video_transcripts [[CallResult.otherError]] 0).1.length
        = ([[CallResult.otherError]] : List (List CallResult)).length :=
  C3_exhaustion_bounded 0 (by decide) [[CallResult.otherError]]

/-- Claim C4: with 3 configured models and responses
[RateLimited, RateLimited, Success a] for one item, process_video starting
at index 0 returns the successful analysis after 3 attempts and leaves the
shared index at 2, so the next call for the next item starts from the
third model ("o1-mini"), not the first. -/
theorem C4_sticky_fallback (a : Analysis) :
    process_video
        [CallResult.rateLimited, CallResult.rateLimited, CallResult.success a] 0
      = (some a, 2, 3)
    ∧ current_model 2 = "o1-mini"
    ∧ OPENAI_MODELS = ["gpt-4o-mini", "gpt-3.5-turbo", "o1-mini"] :=
  ⟨rfl, rfl, rfl⟩

/-- Claim C10: a fully rate-limited call advances the shared index exactly
N times modulo N, so it ends where it started. -/
theorem C10_index_unchanged (idx : Nat) (h : idx < OPENAI_MODELS.length) :
    (process_video (List.replicate OPENAI_MODELS.length CallResult.rateLimited) idx).2.1
      = idx := by
  rw [process_video_exhausted idx h]

/-- Witness for C10 at index 1. -/
theorem C10_index_unchanged_witness :
    1 < OPENAI_MODELS.length
    ∧ (process_video (List.replicate OPENAI_MODELS.length CallResult.rateLimited) 1).2.1
        = 1 :=
  ⟨by decide, C10_index_unchanged 1 (by decide)⟩

end TextWorker

namespace TranscriptionWorker

theorem process_videos_length (w : String → Bool) (dOk : Bool)
    (t : String → Option String) (pOk : Bool) (ids : List String) :
    (process_videos w dOk t pOk ids).length = ids.length := by
  cases pOk <;> cases dOk <;> simp [process_videos, download_videos]

/-- Claim C7: for every input list ids, process_videos returns exactly
ids.length transcript entries on every path (including the download and
processing failure paths, so no per-item failure aborts the batch), and on
the normal path the i-th entry is the transcript of ids i: None exactly
when the acquisition of ids i failed or its transcription failed. -/
theorem C7_cardinality_order_preserved (w : String → Bool) (dOk : Bool)
    (t : String → Option String) (pOk : Bool) (ids : List String) (i : Nat)
    (h : i < ids.length) :
    (process_videos w dOk t pOk ids).length = ids.length
    ∧ (process_videos w true t true ids).get? i =
        some (if w (ids.get ⟨i, h⟩) then t (ids.get ⟨i, h⟩) else none) := by
  refine ⟨process_videos_length w dOk t pOk ids, ?_⟩
  simp [process_videos, download_videos, List.get?_eq_getElem?,
        List.getElem?_map, List.getElem?_eq_getElem h]
  rcases hw : w (ids.get ⟨i, h⟩) <;> simp [hw]

/-- Witness for C7: the spec scenario ids = [a, b, c] with acquisition
failing for b, checked at position 1 (the b entry is None). -/
theorem C7_cardinality_order_preserved_witness :
    (process_videos wavExceptB true transcribeAll true ["a", "b", "c"]).length
        = (["a", "b", "c"] : List String).length
    ∧ (process_videos wavExceptB true transcribeAll true ["a", "b", "c"]).get? 1 =
        some (if wavExceptB ((["a", "b", "c"] : List String).get ⟨1, by decide⟩)
              then transcribeAll ((["a", "b", "c"] : List String).get ⟨1, by decide⟩)
              else none) :=
  C7_cardinality_order_preserved wavExceptB true transcribeAll true
    ["a", "b", "c"] 1 (by decide)

/-- Claim C9 counterexample: a batch with a single item a whose
transcription succeeds.  The effect trace of the normal completion path
contains no per-item file deletion at all — the temporary audio file is
not deleted immediately after the successful transcription of the item;
the only cleanup is the removal of the whole directory tree at batch
end. -/
theorem C9_counterexample :
    (process_videos_trace (fun _ => true) true transcribeAll "p" ["a"]).1
        = [some "a-text"]
    ∧ ((process_videos_trace (fun _ => true) true transcribeAll "p" ["a"]).2.filter
          FsEffect.isUnlink) = [] :=
  ⟨rfl, rfl⟩

/-- Claim C9 amended: on the normal-completion path of the transcription
worker, no temporary audio file is deleted per item; all cleanup happens
at batch end, when the per-profile directory tree (still containing the
audio files) is removed exactly once, as the last filesystem action. -/
theorem C9_amended_cleanup (w : String → Bool) (dOk : Bool)
    (t : String → Option String) (profile : String) (ids : List String) :
    ((process_videos_trace w dOk t profile ids).2.filter FsEffect.isUnlink) = []
    ∧ ((process_videos_trace w dOk t profile ids).2.filter FsEffect.isRemoveDirTree)
        = [FsEffect.removeDirTree profile]
    ∧ (process_videos_trace w dOk t profile ids).2.getLast?
        = some (FsEffect.removeDirTree profile) :=
  ⟨rfl, rfl, rfl⟩

end TranscriptionWorker
namespace Dispatcher

/-- Claim C1 counterexample: the partition (metadata, p,
2025-01-01_00:00:00) is already registered at a location different from
the one the incoming key implies.  add_partition issues the ADD IF NOT
EXISTS statement, the statement succeeds as a silent no-op, the catalog
keeps the old location, and the success flag is true: no PartitionConflict
failure is raised anywhere (no conflict outcome even exists in the
code). -/
theorem C1_counterexample :
    add_partition QueryOutcome.succeeded
        [(PartKey.mk "metadata" "p" "2025-01-01_00:00:00", "s3://oldbucket/oldloc")]
        "newbucket"
        "videos/metadata/profile=p/processed_at=2025-01-01_00:00:00/metadata.parquet"
      = ([(PartKey.mk "metadata" "p" "2025-01-01_00:00:00", "s3://oldbucket/oldloc")],
         [DispatchEffect.startQuery "p" "2025-01-01_00:00:00"
            (metadataLocation "newbucket" "p" "2025-01-01_00:00:00")],
         true)
    ∧ metadataLocation "newbucket" "p" "2025-01-01_00:00:00"
        ≠ "s3://oldbucket/oldloc" := by
  exact ⟨by decide, by decide⟩

/-- Claim C1 amended: calling add_partition with a key whose (table,
profile, processed_at) is already registered — under any location,
including a different one — succeeds silently: the ADD IF NOT EXISTS
statement is a no-op, the catalog (and hence the existing location) is
unchanged, and no conflict error is raised; the code has no
PartitionConflict outcome at all. -/
theorem C1_amended_silent_noop (q : QueryOutcome) (c : Catalog)
    (bucket key p ts oldLoc : String)
    (hparse : searchKey key.toList = some (p, ts))
    (hreg : lookupPart c (PartKey.mk "metadata" p ts) = some oldLoc) :
    (add_partition QueryOutcome.succeeded c bucket key).1 = c
    ∧ (add_partition QueryOutcome.succeeded c bucket key).2.2 = true
    ∧ (add_partition q c bucket key).1 = c := by
  have hp : searchKey key.data = some (p, ts) := hparse
  refine ⟨?_, ?_, ?_⟩
  · simp [add_partition, hp, addIfNotExists, hreg]
  · simp [add_partition, hp]
  · cases q <;> simp [add_partition, hp, addIfNotExists, hreg]

/-- Witness for the amended C1 at the counterexample inputs. -/
theorem C1_amended_silent_noop_witness :
    (add_partition QueryOutcome.succeeded
        [(PartKey.mk "metadata" "p" "2025-01-01_00:00:00", "s3://oldbucket/oldloc")]
        "newbucket"
        "videos/metadata/profile=p/processed_at=2025-01-01_00:00:00/metadata.parquet").1
      = [(PartKey.mk "metadata" "p" "2025-01-01_00:00:00", "s3://oldbucket/oldloc")]
    ∧ (add_partition QueryOutcome.succeeded
        [(PartKey.mk "metadata" "p" "2025-01-01_00:00:00", "s3://oldbucket/oldloc")]
        "newbucket"
        "videos/metadata/profile=p/processed_at=2025-01-01_00:00:00/metadata.parquet").2.2
      = true
    ∧ (add_partition QueryOutcome.failed
        [(PartKey.mk "metadata" "p" "2025-01-01_00:00:00", "s3://oldbucket/oldloc")]
        "newbucket"
        "videos/metadata/profile=p/processed_at=2025-01-01_00:00:00/metadata.parquet").1
      = [(PartKey.mk "metadata" "p" "2025-01-01_00:00:00", "s3://oldbucket/oldloc")] :=
  C1_amended_silent_noop QueryOutcome.failed
    [(PartKey.mk "metadata" "p" "2025-01-01_00:00:00", "s3://oldbucket/oldloc")]
    "newbucket"
    "videos/metadata/profile=p/processed_at=2025-01-01_00:00:00/metadata.parquet"
    "p" "2025-01-01_00:00:00" "s3://oldbucket/oldloc" (by decide) (by decide)

end Dispatcher
namespace Dispatcher

/-- Claim C5 counterexample: an artifact-created event whose key has no
profile=.../processed_at=.../ segment pair.  The handler does skip the
partition-registration statement, but it still submits the Batch job for
the event (the submission happens before and independently of key
parsing), and it acknowledges the event with statusCode 200. -/
theorem C5_counterexample :
    handler true QueryOutcome.succeeded [] [("bkt", "videos/metadata/bad.parquet")]
      = Except.ok
          (HandlerResponse.mk 200 "Successfully processed all metadata files",
           [],
           [DispatchEffect.submitJob "videos/metadata/bad.parquet"])
    ∧ ((handler true QueryOutcome.succeeded []
          [("bkt", "videos/metadata/bad.parquet")]).toOption.map
        (fun out => out.2.2.filter DispatchEffect.isSubmitJob))
      = some [DispatchEffect.submitJob "videos/metadata/bad.parquet"] :=
  ⟨rfl, rfl⟩

/-- Claim C5 amended: for an event whose key does not match the
profile=.../processed_at=.../ pattern, the handler issues no
partition-registration statement to the Partition Registry (the malformed
key is logged and the registration step returns early), but it still
submits one JobRequest for the event to the Work Queue, and the event is
acknowledged (statusCode 200). -/
theorem C5_amended_job_still_submitted (q : QueryOutcome) (c : Catalog)
    (bucket key : String) (h : searchKey key.toList = none) :
    add_partition q c bucket key = (c, [], false)
    ∧ handler true q c [(bucket, key)]
        = Except.ok
            (HandlerResponse.mk 200 "Successfully processed all metadata files",
             c, [DispatchEffect.submitJob key]) := by
  have hp : searchKey key.data = none := h
  have hadd : add_partition q c bucket key = (c, [], false) := by
    simp [add_partition, hp]
  refine ⟨hadd, ?_⟩
  simp [handler, handler_records, hadd]

/-- Witness for the amended C5 on the malformed key of the
counterexample. -/
theorem C5_amended_job_still_submitted_witness :
    add_partition QueryOutcome.succeeded [] "bkt" "videos/metadata/bad.parquet"
        = ([], [], false)
    ∧ handler true QueryOutcome.succeeded [] [("bkt", "videos/metadata/bad.parquet")]
        = Except.ok
            (HandlerResponse.mk 200 "Successfully processed all metadata files",
             [], [DispatchEffect.submitJob "videos/metadata/bad.parquet"]) :=
  C5_amended_job_still_submitted QueryOutcome.succeeded [] "bkt"
    "videos/metadata/bad.parquet" (by decide)

/-- Claim C6 counterexample: an event with a well-formed key whose
partition-registration query ends FAILED.  add_partition reports no
success, yet the handler returns statusCode 200 and the event is
acknowledged: the registration failure is absorbed inside the try/except
of add_partition and never surfaces. -/
theorem C6_counterexample :
    (add_partition QueryOutcome.failed [] "bkt"
        "videos/metadata/profile=p/processed_at=2025-01-01_00:00:00/metadata.parquet").2.2
      = false
    ∧ handler true QueryOutcome.failed []
        [("bkt",
          "videos/metadata/profile=p/processed_at=2025-01-01_00:00:00/metadata.parquet")]
      = Except.ok
          (HandlerResponse.mk 200 "Successfully processed all metadata files",
           [],
           [DispatchEffect.submitJob
              "videos/metadata/profile=p/processed_at=2025-01-01_00:00:00/metadata.parquet",
            DispatchEffect.startQuery "p" "2025-01-01_00:00:00"
              (metadataLocation "bkt" "p" "2025-01-01_00:00:00")]) :=
  ⟨rfl, rfl⟩

/-- Claim C6 amended: a failure of the partition-registration step (query
FAILED, CANCELLED, or an exception during registration) is caught and
logged inside add_partition and the handler still acknowledges the event
with statusCode 200; only failures outside add_partition — here a raising
job submission — propagate out of the handler, so only those leave the
event unacknowledged for redelivery. -/
theorem C6_amended_registration_failure_absorbed (q : QueryOutcome)
    (c : Catalog) (bucket key : String) :
    handler true q c [(bucket, key)]
      = Except.ok
          (HandlerResponse.mk 200 "Successfully processed all metadata files",
           (add_partition q c bucket key).1,
           DispatchEffect.submitJob key :: ((add_partition q c bucket key).2.1 ++ []))
    ∧ handler false q c [(bucket, key)] = Except.error "submit_job raised" :=
  ⟨rfl, rfl⟩

end Dispatcher
namespace Polling

theorem pollRunFrom_const_running :
    ∀ b i, pollRunFrom alwaysRunning i b = none := by
  intro b
  induction b with
  | zero => intro i; rfl
  | succ n ih => intro i; simpa [pollRunFrom, alwaysRunning, isTerminal] using ih (i + 1)

theorem pollRunFrom_some_terminal (states : Nat → QState) :
    ∀ b i s, pollRunFrom states i b = some s → isTerminal s = true := by
  intro b
  induction b with
  | zero => intro i s h; simp [pollRunFrom] at h
  | succ n ih =>
    intro i s h
    rw [pollRunFrom] at h
    by_cases ht : isTerminal (states i) = true
    · rw [if_pos ht] at h
      cases h
      exact ht
    · rw [if_neg ht] at h
      exact ih (i + 1) s h

theorem pollRunFrom_isSome (states : Nat → QState) :
    ∀ b i, (∃ k, k < b ∧ isTerminal (states (i + k)) = true) →
      (pollRunFrom states i b).isSome = true := by
  intro b
  induction b with
  | zero =>
    rintro i ⟨k, hk, _⟩
    omega
  | succ n ih =>
    rintro i ⟨k, hk, ht⟩
    rw [pollRunFrom]
    by_cases h0 : isTerminal (states i) = true
    · rw [if_pos h0]; rfl
    · rw [if_neg h0]
      apply ih
      cases k with
      | zero =>
        rw [Nat.add_zero] at ht
        exact absurd ht h0
      | succ k2 =>
        refine ⟨k2, by omega, ?_⟩
        have : i + 1 + k2 = i + (k2 + 1) := by omega
        rw [this]
        exact ht

/-- Claim C8 counterexample: a query that stays RUNNING forever.  For
every bound on the number of poll attempts, the loop has not exited within
that bound — the loop has no bounded-attempt exit and there is no timeout
outcome (its only exit is a terminal query state), so no timeout is ever
surfaced to the caller. -/
theorem C8_counterexample :
    ¬ ∃ bound : Nat, (pollRun alwaysRunning bound).isSome = true := by
  rintro ⟨b, hb⟩
  rw [pollRun, pollRunFrom_const_running b 0] at hb
  simp at hb

/-- Claim C8 amended: the polling loop exits exactly when a poll returns a
terminal state (SUCCEEDED, FAILED or CANCELLED): every value it exits with
is terminal, and if the query reaches a terminal state at some poll it
does exit within that many attempts; there is no attempt bound and no
timeout error for a query that never reaches a terminal state. -/
theorem C8_amended_terminal_exit_only (states : Nat → QState)
    (bound n : Nat) (s : QState)
    (hpoll : pollRun states bound = some s)
    (hterm : isTerminal (states n) = true) :
    isTerminal s = true ∧ (pollRun states (n + 1)).isSome = true := by
  refine ⟨pollRunFrom_some_terminal states bound 0 s hpoll, ?_⟩
  exact pollRunFrom_isSome states (n + 1) 0 ⟨n, by omega, by simpa using hterm⟩

/-- Witness for the amended C8: a query RUNNING on the first poll and
SUCCEEDED on the second. -/
theorem C8_amended_terminal_exit_only_witness :
    isTerminal QState.succeeded = true
    ∧ (pollRun stepStates 2).isSome = true :=
  C8_amended_terminal_exit_only stepStates 2 1 QState.succeeded (by rfl) (by rfl)

end Polling

namespace MetadataWorker

/-- Claim C2 (evidence of the code bug): the profile p has exactly the
partition object just written by the Metadata Worker under its lowercase
key convention (profile=p/processed_at=2025-02-09_11:02:28).  The next
cursor lookup check_last_processed_at for p lists the bucket under the
uppercase convention PROFILE=p/PROCESSED_AT=, which the written key does
not match, so the lookup finds nothing and returns None — the run then
treats the profile as never processed and reprocesses its history, against
the claim that a non-null timestamp at least the written processed_at is
returned. -/
theorem C2_cursor_lookup_misses_own_write :
    check_last_processed_at [writtenKey "p" "2025-02-09_11:02:28"] "p"
      = CursorResult.noneFound
    ∧ strHasPref (cursorKey "p") (writtenKey "p" "2025-02-09_11:02:28") = false
    ∧ tsShape "2025-02-09_11:02:28".toList = false
    ∧ tsShape "2025-02-09 11:02:28".toList = true := by
  exact ⟨by decide, by decide, by decide, by decide⟩

end MetadataWorker
